import Mathlib

/-!
Verification of the trade-signals web application's verification subsystem
(OTP + CAPTCHA email verification) and its role-scoped admin notification
policy, as a shallow embedding of the Python source.

Conventions of the embedding:
* timestamps are integer seconds (`Int`), mirroring `datetime` comparisons;
* database tables are Lean lists of records; `db.session.commit()` of a
  batch of pending changes is modelled by returning the updated state, and
  a rollback by returning the unchanged state;
* external collaborators (SHA-256 hashing, the mail dispatcher, reCAPTCHA,
  the signed registration token codec, the e-mail/password validators from
  the missing `utils/validators.py`) are passed in as explicit function or
  Boolean parameters, so every theorem holds for any implementation of the
  collaborator.
-/

namespace TradeSignals

/-- Python `str.strip()`: drop leading and trailing whitespace. -/
def py_strip (s : String) : String :=
  String.mk (((s.data.dropWhile Char.isWhitespace).reverse.dropWhile Char.isWhitespace).reverse)

/-- Python `str.lower()` (ASCII case folding suffices for this source). -/
def py_lower (s : String) : String :=
  String.mk (s.data.map Char.toLower)

/-- Python falsiness of a string: `not s`. -/
def py_is_empty (s : String) : Bool :=
  s.data.isEmpty

/-- Python `len(s)` for strings. -/
def py_len (s : String) : Nat :=
  s.data.length

/-- Python `s.isdigit()` (ASCII digits suffice for this source): non-empty
and all digits — emptiness is checked separately by the callers. -/
def py_is_digit_str (s : String) : Bool :=
  s.data.all Char.isDigit

/-- Python `s.isalpha()` on a non-empty string (ASCII letters). -/
def py_is_alpha_str (s : String) : Bool :=
  s.data.all Char.isAlpha

/-- Customer account row (`models/user.py`, table `users`). -/
structure User where
  id : Nat
  full_name : String
  mobile : String
  email : String
  password_hash : String
  is_active : Bool
  email_verified : Bool
deriving Repr, DecidableEq

/-- Staff/admin account row (`models/admin.py`, table `admins`).
`product_category` is `none` for a SQL NULL. -/
structure Admin where
  id : Nat
  username : String
  email : String
  password_hash : String
  role : String
  product_category : Option String
  is_active : Bool
deriving Repr, DecidableEq

/-- Admin notification row (`models/admin_notification.py`). -/
structure AdminNotification where
  id : Nat
  type : String
  title : String
  message : String
  related_id : Option Nat
  is_read : Bool
  created_at : Int
deriving Repr, DecidableEq

/-- Modelled from the spec and from the row's uses in
`routes/admin/notifications.py` (the file `models/product.py` is not in the
source tree): a product has an id, a name (its category) and an active flag. -/
structure Product where
  id : Nat
  name : String
  is_active : Bool
deriving Repr, DecidableEq

/-- Subscription row, reduced to the columns the notification policy reads
(`Subscription.id`, `Subscription.product_id`). -/
structure Subscription where
  id : Nat
  product_id : Nat
deriving Repr, DecidableEq

/-- Signal row, reduced to the columns the notification policy reads
(`Signal.id`, `Signal.product_id`). -/
structure Signal where
  id : Nat
  product_id : Nat
deriving Repr, DecidableEq

/-- The slice of the database read by the admin notification routes. -/
structure NotificationDb where
  products : List Product
  subscriptions : List Subscription
  signals : List Signal
  notifications : List AdminNotification
deriving Repr, DecidableEq

/-- Python truthiness of an optional string column: `None` and `""` are falsy. -/
def str_opt_truthy : Option String → Bool
  | none => false
  | some s => !py_is_empty s

/-- Python truthiness of an optional integer column: `None` and `0` are falsy
(`if notification.related_id:`). -/
def int_opt_truthy : Option Nat → Bool
  | none => false
  | some n => n != 0

/-- SQL `related_id IN (subquery)`: a NULL `related_id` matches nothing. -/
def related_id_in (r : Option Nat) (ids : List Nat) : Bool :=
  match r with
  | none => false
  | some v => ids.contains v

/-- `query.order_by(AdminNotification.created_at.desc())`: sort newest first. -/
def order_by_created_desc (l : List AdminNotification) : List AdminNotification :=
  l.insertionSort (fun a b => b.created_at ≤ a.created_at)

/-- `if limit: query = query.limit(limit)` — Python truthiness: a `None` or
`0` limit leaves the query unlimited. -/
def apply_limit : Option Nat → List AdminNotification → List AdminNotification
  | none, l => l
  | some k, l => if k = 0 then l else l.take k

/-- The visibility predicate of `get_notifications_for_admin`'s scoped branch:
subscription/signal events must resolve to an entity of one of the admin's
products; `user` and `system` events always pass. -/
def scoped_notification_pred (subIds sigIds : List Nat) (n : AdminNotification) : Bool :=
  (n.type == "subscription" && related_id_in n.related_id subIds) ||
  (n.type == "signal" && related_id_in n.related_id sigIds) ||
  n.type == "user" || n.type == "system"

/-- `get_notifications_for_admin(admin, limit)` from
`routes/admin/notifications.py`. Superadmins (and admins with a falsy
`product_category`) see everything; a category-scoped admin with zero active
products in their category gets the early `return []`; otherwise the feed is
filtered by `scoped_notification_pred`, ordered newest first and limited. -/
def get_notifications_for_admin (admin : Admin) (db : NotificationDb)
    (limit : Option Nat) : List AdminNotification :=
  if admin.role != "superadmin" && str_opt_truthy admin.product_category then
    let cat := admin.product_category.getD ""
    let products := db.products.filter (fun p => p.name == cat && p.is_active)
    let product_ids := products.map (·.id)
    if product_ids.isEmpty then
      []
    else
      let subscription_ids :=
        (db.subscriptions.filter (fun s => product_ids.contains s.product_id)).map (·.id)
      let signal_ids :=
        (db.signals.filter (fun s => product_ids.contains s.product_id)).map (·.id)
      apply_limit limit (order_by_created_desc
        (db.notifications.filter (scoped_notification_pred subscription_ids signal_ids)))
  else
    apply_limit limit (order_by_created_desc db.notifications)

/-- Outcome of `mark_as_read` (HTTP codes 404 / 403 / 200). -/
inductive MarkReadResult where
  | notFound
  | forbidden
  | ok
deriving Repr, DecidableEq

/-- `notification.is_read = True; db.session.commit()`: set the read flag of
the row with the given primary key (`id` is the primary key, so at most one
row changes). -/
def set_read (db : NotificationDb) (notification_id : Nat) : NotificationDb :=
  let updated := db.notifications.map
    (fun m => if m.id == notification_id then { m with is_read := true } else m)
  { db with notifications := updated }

/-- `mark_as_read(notification_id)`: fetch by primary key (404 when absent),
re-derive the visible set with `limit=None`, reject ids outside it with 403,
otherwise set `is_read = True` and commit. -/
def mark_as_read (admin : Admin) (db : NotificationDb) (notification_id : Nat) :
    MarkReadResult × NotificationDb :=
  match db.notifications.find? (fun n => n.id == notification_id) with
  | none => (.notFound, db)
  | some n =>
    let visible_ids := (get_notifications_for_admin admin db none).map (·.id)
    if visible_ids.contains n.id then
      (.ok, set_read db n.id)
    else
      (.forbidden, db)

/-- Redirect target computed by `redirect_notification` (the `url_for` calls). -/
inductive RedirectTarget where
  | subscriptionView (subscription_id : Nat)
  | signalsList
  | customersList
  | dashboard
deriving Repr, DecidableEq

/-- Outcome of `redirect_notification`. -/
inductive RedirectResult where
  | notFound
  | forbidden
  | ok (target : RedirectTarget)
deriving Repr, DecidableEq

/-- `redirect_notification(notification_id)`: fetch by primary key, re-derive
the visible set with `limit=None`, 403 outside it; inside it mark the row read
and resolve the redirect target from the row's type and (truthy) related id. -/
def redirect_notification (admin : Admin) (db : NotificationDb)
    (notification_id : Nat) : RedirectResult × NotificationDb :=
  match db.notifications.find? (fun n => n.id == notification_id) with
  | none => (.notFound, db)
  | some n =>
    let visible_ids := (get_notifications_for_admin admin db none).map (·.id)
    if visible_ids.contains n.id then
      let db' := set_read db n.id
      let target : RedirectTarget :=
        if n.type == "subscription" && int_opt_truthy n.related_id then
          .subscriptionView (n.related_id.getD 0)
        else if n.type == "signal" && int_opt_truthy n.related_id then
          .signalsList
        else if n.type == "user" && int_opt_truthy n.related_id then
          .customersList
        else
          .dashboard
      (.ok target, db')
    else
      (.forbidden, db)

/-- `email_verification_otp` row (`models/email_verification.py`): hashed OTP
keyed by email; `otp_sent_at` is a nullable column. -/
structure EmailVerificationOTP where
  email : String
  otp_hash : String
  otp_expires_at : Int
  otp_attempts : Nat
  email_verified : Bool
  otp_sent_at : Option Int
deriving Repr, DecidableEq

/-- `captcha_challenge` row (`models/email_verification.py`): one-time-use
custom math CAPTCHA with 2-minute expiry. -/
structure CaptchaChallenge where
  captcha_id : String
  captcha_answer : String
  captcha_expires_at : Int
  used : Bool
deriving Repr, DecidableEq

/-- `otp_send_log` row: one append-only entry per OTP send, for rate limiting. -/
structure OTPSendLog where
  email : String
  sent_at : Int
deriving Repr, DecidableEq

/-- The slice of the database read and written by the email-verification
routes of `routes/auth.py`. -/
structure AuthDb where
  otps : List EmailVerificationOTP
  captchas : List CaptchaChallenge
  send_logs : List OTPSendLog
  users : List User
deriving Repr, DecidableEq

/-- `EmailVerificationOTP.is_expired`: `utcnow() >= otp_expires_at`. -/
def otp_is_expired (now : Int) (row : EmailVerificationOTP) : Bool :=
  now ≥ row.otp_expires_at

/-- `EmailVerificationOTP.attempts_exceeded`: `otp_attempts >= 5`. -/
def attempts_exceeded (row : EmailVerificationOTP) : Bool :=
  row.otp_attempts ≥ 5

/-- `CaptchaChallenge.is_expired`: `utcnow() >= captcha_expires_at`. -/
def captcha_is_expired (now : Int) (cap : CaptchaChallenge) : Bool :=
  now ≥ cap.captcha_expires_at

/-- `utils/otp_helper.py` `verify_otp(plain_otp, otp_hash)`: re-hash and
compare. `hashOtp` stands for the SHA-256 hex digest `hash_otp`. -/
def verify_otp (hashOtp : String → String) (plain_otp otp_hash : String) : Bool :=
  hashOtp plain_otp == otp_hash

/-- `_cleanup_expired_verification_data()`: delete OTP rows with
`otp_expires_at <= now`, CAPTCHA rows with `captcha_expires_at <= now`, and
send-log rows with `sent_at <= now - 24h`, then commit. -/
def cleanup_expired_verification_data (now : Int) (db : AuthDb) : AuthDb :=
  let otps := db.otps.filter (fun r => !(r.otp_expires_at ≤ now))
  let captchas := db.captchas.filter (fun c => !(c.captcha_expires_at ≤ now))
  let send_logs := db.send_logs.filter (fun l => !(l.sent_at ≤ now - 86400))
  { db with otps := otps, captchas := captchas, send_logs := send_logs }

/-- `cap.used = 1; db.session.commit()`: mark every challenge with this
(primary-key) id used. -/
def mark_captcha_used (db : AuthDb) (cid : String) : AuthDb :=
  let captchas := db.captchas.map
    (fun c => if c.captcha_id == cid then { c with used := true } else c)
  { db with captchas := captchas }

/-- `_validate_captcha_custom(captcha_id, captcha_answer)`: reject empty
inputs, missing/used/expired challenges; compare answers as trimmed strings;
on success mark the challenge used (committed immediately). -/
def validate_captcha_custom (now : Int) (captcha_id captcha_answer : String)
    (db : AuthDb) : Bool × AuthDb :=
  if py_is_empty captcha_id || py_is_empty captcha_answer then
    (false, db)
  else
    match db.captchas.find? (fun c => c.captcha_id == captcha_id) with
    | none => (false, db)
    | some cap =>
      if cap.used || captcha_is_expired now cap then
        (false, db)
      else if py_strip cap.captcha_answer == py_strip captcha_answer then
        (true, mark_captcha_used db captcha_id)
      else
        (false, db)

/-- Outcome of `api_send_verification_otp`, one constructor per return of the
route (HTTP 400/429/500/200). -/
inductive SendOtpResult where
  | invalidEmail
  | captchaInvalid
  | rateLimited
  | cooldown (retry_after_seconds : Int)
  | mailNotConfigured
  | deliveryFailed
  | sent
deriving Repr, DecidableEq

/-- Replace-or-insert the `EmailVerificationOTP` row for `email` with a fresh
OTP hash, `expires = now + 5min`, `attempts = 0`, `verified = 0`,
`sent_at = now` (the `if row: ... else: db.session.add(row)` block). -/
def upsert_otp_row (db : AuthDb) (email otp_hash : String) (now : Int) : AuthDb :=
  let fresh : EmailVerificationOTP :=
    { email := email, otp_hash := otp_hash, otp_expires_at := now + 300,
      otp_attempts := 0, email_verified := false, otp_sent_at := some now }
  let otps :=
    match db.otps.find? (fun r => r.email == email) with
    | some _ => db.otps.map (fun r => if r.email == email then fresh else r)
    | none => db.otps ++ [fresh]
  { db with otps := otps }

/-- Append an `OTPSendLog(email=email, sent_at=now)` row. -/
def append_send_log (db : AuthDb) (email : String) (now : Int) : AuthDb :=
  { db with send_logs := db.send_logs ++ [⟨email, now⟩] }

/-- `api_send_verification_otp` (`routes/auth.py`): cleanup, email syntax
check, CAPTCHA (reCAPTCHA token if supplied, else the custom challenge),
1-hour rate limit over `otp_send_log`, 30-second resend cooldown, mail
configuration check, then write the new OTP row + send-log entry and commit
BEFORE dispatching the mail. Because the commit precedes
`send_verification_otp_email`, the `db.session.rollback()` of the except
branch acts on an already-committed transaction: on mail failure the new row
and log entry remain in the database and only the HTTP result reports
failure.

Parameters standing for collaborators: `validateEmail` is
`utils.validators.validate_email` (file absent from the source tree),
`hashOtp` is SHA-256, `recaptchaOk` is the outcome of `_validate_recaptcha`
on a given token, `mailConfigured` is the `MAIL_SERVER`/`MAIL_USERNAME`
config check, `mailOk` is whether `send_verification_otp_email` succeeds,
and `otp` is the value produced by `generate_otp()`. -/
def api_send_verification_otp (validateEmail : String → Bool)
    (hashOtp : String → String) (recaptchaOk : String → Bool)
    (mailConfigured mailOk : Bool) (now : Int) (otp : String)
    (email captcha_token captcha_id captcha_answer : String)
    (db : AuthDb) : SendOtpResult × AuthDb :=
  let db := cleanup_expired_verification_data now db
  let email := py_lower (py_strip email)
  let captcha_token := py_strip captcha_token
  let captcha_id := py_strip captcha_id
  let captcha_answer := py_strip captcha_answer
  if py_is_empty email || !validateEmail email then
    (.invalidEmail, db)
  else
    let captcha_ok₀ := if !py_is_empty captcha_token then recaptchaOk captcha_token else false
    let step :=
      if !captcha_ok₀ && !py_is_empty captcha_id && !py_is_empty captcha_answer then
        validate_captcha_custom now captcha_id captcha_answer db
      else
        (captcha_ok₀, db)
    let captcha_ok := step.1
    let db := step.2
    if !captcha_ok then
      (.captchaInvalid, db)
    else
      let recent_sends :=
        (db.send_logs.filter (fun l => l.email == email && now - 3600 ≤ l.sent_at)).length
      if recent_sends ≥ 5 then
        (.rateLimited, db)
      else
        let existing := db.otps.find? (fun r => r.email == email)
        let cooldown_hit :=
          match existing with
          | some r =>
            match r.otp_sent_at with
            | some t => if now - t < 30 then some (now - t) else none
            | none => none
          | none => none
        match cooldown_hit with
        | some delta => (.cooldown (max 1 (30 - delta)), db)
        | none =>
          if !mailConfigured then
            (.mailNotConfigured, db)
          else
            let db := append_send_log (upsert_otp_row db email (hashOtp otp) now) email now
            if mailOk then (.sent, db) else (.deliveryFailed, db)

/-- A decoded `RegistrationProofToken`: `create_registration_verification_token`
signs `email|expiry` with `expiry = now + 15min`; the embedding keeps the
payload and leaves the HMAC/base64 encoding to the codec collaborator. -/
structure RegistrationProofToken where
  email : String
  expiry : Int
deriving Repr, DecidableEq

/-- Outcome of `api_verify_email_otp`, one constructor per return of the
route. -/
inductive VerifyOtpResult where
  | invalidEmail
  | invalidOtpShape
  | notFound
  | expired
  | attemptsExhausted
  | mismatch
  | verified (token : RegistrationProofToken)
deriving Repr, DecidableEq

/-- `user.email_verified = True` on the FIRST user matching the email
(`User.query.filter_by(email=email).first()`); `email` is unique in the
`users` table. -/
def mark_user_verified_first : List User → String → List User
  | [], _ => []
  | u :: rest, e =>
    if u.email == e then { u with email_verified := true } :: rest
    else u :: mark_user_verified_first rest e

/-- `api_verify_email_otp` (`routes/auth.py`): cleanup, email syntax check,
6-digit shape check, then load the row (absent → not found), `is_expired`,
`attempts_exceeded` (checked BEFORE the hash comparison), hash mismatch
(increment `otp_attempts`, commit), or success (mark any existing user
verified, delete the row, commit, and issue a registration proof token for
the email, valid 15 minutes). -/
def api_verify_email_otp (validateEmail : String → Bool)
    (hashOtp : String → String) (now : Int) (email otp : String)
    (db : AuthDb) : VerifyOtpResult × AuthDb :=
  let db := cleanup_expired_verification_data now db
  let email := py_lower (py_strip email)
  let otp := py_strip otp
  if py_is_empty email || !validateEmail email then
    (.invalidEmail, db)
  else if py_is_empty otp || !py_is_digit_str otp || py_len otp ≠ 6 then
    (.invalidOtpShape, db)
  else
    match db.otps.find? (fun r => r.email == email) with
    | none => (.notFound, db)
    | some row =>
      if otp_is_expired now row then
        (.expired, db)
      else if attempts_exceeded row then
        (.attemptsExhausted, db)
      else if !verify_otp hashOtp otp row.otp_hash then
        let otps := db.otps.map (fun r =>
          if r.email == email then { r with otp_attempts := r.otp_attempts + 1 } else r)
        (.mismatch, { db with otps := otps })
      else
        let users := mark_user_verified_first db.users email
        let otps := db.otps.filter (fun r => !(r.email == email))
        (.verified ⟨email, now + 900⟩, { db with users := users, otps := otps })

/-- `''.join(filter(str.isdigit, s))`: keep only digit characters. -/
def keep_digits (s : String) : String :=
  String.mk (s.data.filter Char.isDigit)

/-- `s.replace(' ', '')`: drop space characters (for the full-name check). -/
def remove_spaces (s : String) : String :=
  String.mk (s.data.filter (fun c => c ≠ ' '))

/-- Outcome of the `register` POST handler: registration closed by settings,
validation errors flashed, or a new account committed. -/
inductive RegisterResult where
  | closed
  | failed
  | success (user : User)
deriving Repr, DecidableEq

/-- `register` (`routes/auth.py`): the POST branch for an anonymous visitor.
`email_verified` defaults to `True` when no `verification_token` is supplied;
when one is supplied the flag becomes whether the token decodes to exactly
the (stripped, un-lowercased) email of the form. Validation failures abort
without touching the store; otherwise the new user row (normalized mobile and
email, active, the computed verified flag) is committed.

Collaborator parameters: `allowRegistration` is
`get_setting('allow_registration', '1') == '1'`; `validateEmail` /
`validatePassword` come from the absent `utils/validators.py`;
`hashPassword` is `utils.auth_utils.hash_password`; `verifyToken` is
`verify_registration_verification_token`, the HMAC-signed token codec
(returns the lower-cased email bound to a valid unexpired token). -/
def register (allowRegistration : Bool)
    (validateEmail validatePassword : String → Bool)
    (hashPassword : String → String) (verifyToken : String → Option String)
    (next_id : Nat)
    (full_name mobile email password retype_password verification_token : String)
    (users : List User) : RegisterResult × List User :=
  if !allowRegistration then
    (.closed, users)
  else
    let full_name := py_strip full_name
    let mobile := py_strip mobile
    let email := py_strip email
    let verification_token := py_strip verification_token
    let email_verified :=
      if py_is_empty verification_token then true
      else
        match verifyToken verification_token with
        | some token_email => token_email == email
        | none => false
    let name_stripped := remove_spaces full_name
    let mobile_normalized := keep_digits mobile
    let email_normalized := py_lower email
    let name_err := py_is_empty full_name || py_is_empty name_stripped ||
      !py_is_alpha_str name_stripped
    let mobile_err := py_is_empty mobile || py_is_empty mobile_normalized ||
      py_len mobile_normalized < 10 || py_len mobile_normalized > 15
    let email_err := !validateEmail email_normalized
    let password_err := !validatePassword password
    let retype_err := password ≠ retype_password
    let mobile_taken := users.any (fun u => u.mobile == mobile_normalized)
    let email_taken := users.any (fun u => u.email == email_normalized)
    if name_err || mobile_err || email_err || password_err || retype_err ||
        mobile_taken || email_taken then
      (.failed, users)
    else
      let new_user : User :=
        { id := next_id, full_name := full_name, mobile := mobile_normalized,
          email := email_normalized, password_hash := hashPassword password,
          is_active := true, email_verified := email_verified }
      (.success new_user, users ++ [new_user])

/-- The eight product categories of `routes/admin/staff.py`. -/
def PRODUCT_CATEGORIES : List String :=
  ["Indices Option", "Stock Option", "Intraday Stocks", "Stocks Short Term",
   "Stocks Long Term", "Multi Bagger Stocks", "Forex Trading", "Crypto Trading"]

/-- `request.form.get('product_category', '').strip() or None`. -/
def category_of_form (s : String) : Option String :=
  let c := py_strip s
  if py_is_empty c then none else some c

/-- `create_staff` (`routes/admin/staff.py`), POST branch for the acting
admin `acting`: only a superadmin may create staff; validation covers
username presence/uniqueness, email syntax/uniqueness, password length ≥ 6
and the category whitelist; the role is derived from the form — no category
means `superadmin`, a category means `admin`. Returns the committed row, or
`none` when the request is rejected. -/
def create_staff (acting : Admin) (existing : List Admin)
    (validateEmail : String → Bool) (hashPassword : String → String)
    (next_id : Nat) (username email password product_category : String)
    (is_active : Bool) : Option Admin :=
  if acting.role != "superadmin" then
    none
  else
    let username := py_strip username
    let email := py_strip email
    let password := py_strip password
    let category := category_of_form product_category
    let username_err := py_is_empty username ||
      existing.any (fun a => a.username == username)
    let email_err := !validateEmail email || existing.any (fun a => a.email == email)
    let password_err := py_is_empty password || py_len password < 6
    let category_err :=
      match category with
      | some c => !PRODUCT_CATEGORIES.contains c
      | none => false
    if username_err || email_err || password_err || category_err then
      none
    else
      let role := if category.isNone then "superadmin" else "admin"
      some { id := next_id, username := username, email := email,
             password_hash := hashPassword password, role := role,
             product_category := category, is_active := is_active }

/-- `edit_staff` (`routes/admin/staff.py`), POST branch: only a superadmin
may edit, and another superadmin's account cannot be edited; after
validation the row is updated — a superadmin keeps its role and loses any
category, any other staff member gets the form's category and the role
`admin`; a non-empty password shorter than 6 characters aborts the update.
Returns the updated row, or `none` when the request is rejected. -/
def edit_staff (acting : Admin) (existing : List Admin)
    (validateEmail : String → Bool) (hashPassword : String → String)
    (staff : Admin) (username email product_category password : String)
    (is_active : Bool) : Option Admin :=
  if acting.role != "superadmin" then
    none
  else if staff.role == "superadmin" && staff.id ≠ acting.id then
    none
  else
    let username := py_strip username
    let email := py_strip email
    let password := py_strip password
    let category := category_of_form product_category
    let username_err := py_is_empty username ||
      (username ≠ staff.username && existing.any (fun a => a.username == username))
    let email_err := !validateEmail email ||
      (email ≠ staff.email && existing.any (fun a => a.email == email))
    let category_err :=
      match category with
      | some c => !PRODUCT_CATEGORIES.contains c
      | none => false
    if username_err || email_err || category_err then
      none
    else
      let updated := { staff with username := username, email := email, is_active := is_active }
      let updated :=
        if staff.role == "superadmin" then
          { updated with product_category := none }
        else
          { updated with product_category := category, role := "admin" }
      if !py_is_empty password then
        if py_len password < 6 then none
        else some { updated with password_hash := hashPassword password }
      else
        some updated

/-- The send flow of claim C2 evaluated at a failing input: a valid email and
CAPTCHA, mail configured, every check passing, and the mail dispatch failing
(`mailOk = false`). -/
def c2_failed_send : SendOtpResult × AuthDb :=
  api_send_verification_otp (fun _ => true) (fun s => "sha" ++ s) (fun _ => false)
    true false 500 "482913" "user@example.com" "" "cid1" "12"
    ⟨[], [⟨"cid1", "12", 1000, false⟩], [], []⟩

/-- A category-scoped admin for "Forex Trading". -/
def fx_admin : Admin :=
  ⟨1, "fx", "fx@example.com", "h", "admin", some "Forex Trading", true⟩

/-- A notification database with no Forex Trading product (one active product
of another category) and a single unread `user`-typed event. -/
def fx_empty_db : NotificationDb :=
  ⟨[⟨5, "Crypto Trading", true⟩], [], [],
   [⟨10, "user", "New user", "registered", some 7, false, 100⟩]⟩

/- ------------------------------------------------------------------ -/
/- Helper lemmas -/
/- ------------------------------------------------------------------ -/

theorem find?_filter_of_pred {α : Type} {q p : α → Bool} {l : List α} {r : α}
    (h : l.find? q = some r) (hp : p r = true) :
    (l.filter p).find? q = some r := by
  induction l with
  | nil => simp at h
  | cons a t ih =>
    by_cases hq : q a
    · rw [List.find?_cons_of_pos _ hq] at h
      obtain rfl : a = r := by simpa using h
      rw [List.filter_cons, if_pos hp, List.find?_cons_of_pos _ hq]
    · rw [List.find?_cons_of_neg _ hq] at h
      rw [List.filter_cons]
      by_cases hpa : p a
      · rw [if_pos hpa, List.find?_cons_of_neg _ hq]
        exact ih h
      · rw [if_neg hpa]
        exact ih h

theorem find?_filter_of_none {α : Type} {q : α → Bool} (p : α → Bool) {l : List α}
    (h : l.find? q = none) : (l.filter p).find? q = none := by
  rw [List.find?_eq_none] at h ⊢
  intro x hx
  exact h x (List.mem_of_mem_filter hx)

theorem filter_filter_of_imp {α : Type} {p q : α → Bool} (l : List α)
    (h : ∀ x, q x = true → p x = true) :
    (l.filter p).filter q = l.filter q := by
  rw [List.filter_filter]
  refine List.filter_congr ?_
  intro x _
  by_cases hq : q x
  · simp [hq, h x hq]
  · simp [hq]

/- ------------------------------------------------------------------ -/
/- Claim theorems -/
/- ------------------------------------------------------------------ -/

/-- C1 (counterexample to the claim as stated): a category-scoped admin for
"Forex Trading" whose category has zero active products does NOT see the
`user`/`system`-typed events — the feed is the empty list even though a
`user`-typed event exists. -/
theorem claim_C1_cex :
    fx_admin.role ≠ "superadmin" ∧
    str_opt_truthy fx_admin.product_category = true ∧
    fx_empty_db.products.filter
      (fun p => p.name == fx_admin.product_category.getD "" && p.is_active) = [] ∧
    fx_empty_db.notifications.filter
      (fun n => n.type == "user" || n.type == "system") ≠ [] ∧
    get_notifications_for_admin fx_admin fx_empty_db (some 50) = [] := by
  decide

/-- C1 (amended): for every category-scoped admin whose assigned category has
zero active products, the notification feed returns the empty set — the
`user`/`system` events are dropped along with everything else (the set is
narrowed to empty, not restricted to `user`/`system`). -/
theorem claim_C1_zero_products_feed_empty (admin : Admin) (db : NotificationDb)
    (limit : Option Nat)
    (h_role : admin.role ≠ "superadmin")
    (h_cat : str_opt_truthy admin.product_category = true)
    (h_zero : db.products.filter
      (fun p => p.name == admin.product_category.getD "" && p.is_active) = []) :
    get_notifications_for_admin admin db limit = [] := by
  unfold get_notifications_for_admin
  have h1 : (admin.role != "superadmin") = true := by
    simp [bne_iff_ne, h_role]
  simp [h1, h_cat, h_zero]

/-- C1 witness: the amended theorem applied to the concrete Forex admin and
product-free database. -/
theorem claim_C1_witness :
    get_notifications_for_admin fx_admin fx_empty_db (some 50) = [] :=
  claim_C1_zero_products_feed_empty fx_admin fx_empty_db (some 50)
    (by decide) (by decide) (by decide)

/-- C4: for a category-scoped admin, any existing notification whose id is
outside the admin's re-derived visible set is rejected with `Forbidden` by
both mark-as-read and redirect-target resolution, and the database — in
particular the event's read flag — is unchanged. -/
theorem claim_C4_forbidden_outside_visible (admin : Admin) (db : NotificationDb)
    (nid : Nat) (n : AdminNotification)
    (h_role : admin.role ≠ "superadmin")
    (h_cat : str_opt_truthy admin.product_category = true)
    (h_find : db.notifications.find? (fun m => m.id == nid) = some n)
    (h_out : nid ∉ (get_notifications_for_admin admin db none).map (fun m => m.id)) :
    mark_as_read admin db nid = (.forbidden, db) ∧
    redirect_notification admin db nid = (.forbidden, db) := by
  have hid : n.id = nid := by
    have h := List.find?_some h_find
    simpa using h
  subst hid
  constructor
  · unfold mark_as_read
    rw [h_find]
    simp [h_out]
  · unfold redirect_notification
    rw [h_find]
    simp [h_out]

/-- C4 witness: the Forex admin with zero products may not mark or resolve
the existing `user` event with id 10 (its visible set is empty). -/
theorem claim_C4_witness :
    mark_as_read fx_admin fx_empty_db 10 = (.forbidden, fx_empty_db) ∧
    redirect_notification fx_admin fx_empty_db 10 = (.forbidden, fx_empty_db) :=
  claim_C4_forbidden_outside_visible fx_admin fx_empty_db 10
    ⟨10, "user", "New user", "registered", some 7, false, 100⟩
    (by decide) (by decide) (by decide) (by decide)

/-- C2 evaluated at the failing input (`c2_failed_send`): when the mail
dispatch fails after every check passed, the route answers `DeliveryFailed`
but the just-written `EmailVerificationOTP` row and its `OTPSendLog` row are
still committed — `db.session.commit()` runs before the dispatch, so the
rollback in the except branch cannot undo them, contradicting the claimed
roll-back-to-previous-state behavior. -/
theorem claim_C2_commit_precedes_dispatch :
    c2_failed_send.1 = .deliveryFailed ∧
    c2_failed_send.2.otps =
      [⟨"user@example.com", "sha482913", 800, 0, false, some 500⟩] ∧
    c2_failed_send.2.send_logs = [⟨"user@example.com", 500⟩] := by
  decide

theorem create_staff_invariant (acting : Admin) (existing : List Admin)
    (validateEmail : String → Bool) (hashPassword : String → String)
    (next_id : Nat) (username email password product_category : String)
    (is_active : Bool) (a : Admin)
    (h : create_staff acting existing validateEmail hashPassword next_id
      username email password product_category is_active = some a) :
    (a.role = "superadmin" → a.product_category = none) ∧
    (a.product_category ≠ none → a.role ≠ "superadmin") := by
  unfold create_staff at h
  simp only [] at h
  split at h
  · exact absurd h (by simp)
  · split at h
    · exact absurd h (by simp)
    · obtain rfl := Option.some.inj h
      cases hc : category_of_form product_category with
      | none => simp [hc]
      | some c => simp [hc]

theorem edit_staff_invariant (acting : Admin) (existing : List Admin)
    (validateEmail : String → Bool) (hashPassword : String → String)
    (staff : Admin) (username email product_category password : String)
    (is_active : Bool) (a : Admin)
    (h : edit_staff acting existing validateEmail hashPassword staff
      username email product_category password is_active = some a) :
    (a.role = "superadmin" → a.product_category = none) ∧
    (a.product_category ≠ none → a.role ≠ "superadmin") := by
  unfold edit_staff at h
  simp only [] at h
  split at h
  · exact absurd h (by simp)
  · split at h
    · exact absurd h (by simp)
    · split at h
      · exact absurd h (by simp)
      · by_cases hsr : staff.role == "superadmin"
        · have hrole : staff.role = "superadmin" := by simpa using hsr
          simp only [hsr, if_true] at h
          split at h
          · split at h
            · exact absurd h (by simp)
            · obtain rfl := Option.some.inj h
              simp [hrole]
          · obtain rfl := Option.some.inj h
            simp [hrole]
        · simp only [hsr, if_false] at h
          split at h
          · split at h
            · exact absurd h (by simp)
            · obtain rfl := Option.some.inj h
              simp
          · obtain rfl := Option.some.inj h
            simp

/-- C9: every StaffAccount produced by `create_staff` or updated by
`edit_staff` satisfies the role/category exclusivity invariant: a record with
a category restriction is never superadmin-role, and a superadmin record
carries no category. -/
theorem claim_C9_staff_role_category_invariant :
    (∀ (acting : Admin) (existing : List Admin) (validateEmail : String → Bool)
      (hashPassword : String → String) (next_id : Nat)
      (username email password product_category : String) (is_active : Bool)
      (a : Admin),
      create_staff acting existing validateEmail hashPassword next_id
        username email password product_category is_active = some a →
      (a.role = "superadmin" → a.product_category = none) ∧
      (a.product_category ≠ none → a.role ≠ "superadmin")) ∧
    (∀ (acting : Admin) (existing : List Admin) (validateEmail : String → Bool)
      (hashPassword : String → String) (staff : Admin)
      (username email product_category password : String) (is_active : Bool)
      (a : Admin),
      edit_staff acting existing validateEmail hashPassword staff
        username email product_category password is_active = some a →
      (a.role = "superadmin" → a.product_category = none) ∧
      (a.product_category ≠ none → a.role ≠ "superadmin")) :=
  ⟨fun acting existing vE hP nid u e pw cat act a h =>
      create_staff_invariant acting existing vE hP nid u e pw cat act a h,
    fun acting existing vE hP staff u e cat pw act a h =>
      edit_staff_invariant acting existing vE hP staff u e cat pw act a h⟩

/-- C9 witness: creating the category admin "bob" for Forex Trading and
editing him over to Crypto Trading both yield records satisfying the
invariant, via the claim theorem. -/
theorem claim_C9_witness :
    (create_staff ⟨1, "root", "r@example.com", "h", "superadmin", none, true⟩ []
        (fun _ => true) (fun s => s) 2 "bob" "b@example.com" "secret77"
        "Forex Trading" true =
      some ⟨2, "bob", "b@example.com", "secret77", "admin", some "Forex Trading", true⟩) ∧
    ((⟨2, "bob", "b@example.com", "secret77", "admin", some "Forex Trading", true⟩ : Admin).role
        = "superadmin" →
      (⟨2, "bob", "b@example.com", "secret77", "admin", some "Forex Trading", true⟩ : Admin).product_category
        = none) ∧
    ((⟨2, "bob", "b@example.com", "secret77", "admin", some "Forex Trading", true⟩ : Admin).product_category
        ≠ none →
      (⟨2, "bob", "b@example.com", "secret77", "admin", some "Forex Trading", true⟩ : Admin).role
        ≠ "superadmin") :=
  ⟨by decide,
    claim_C9_staff_role_category_invariant.1
      ⟨1, "root", "r@example.com", "h", "superadmin", none, true⟩ []
      (fun _ => true) (fun s => s) 2 "bob" "b@example.com" "secret77"
      "Forex Trading" true
      ⟨2, "bob", "b@example.com", "secret77", "admin", some "Forex Trading", true⟩
      (by decide)⟩

/-- C3: an unexpired OTP record with `otp_attempts ≥ 5` makes `verify_otp`
answer `AttemptsExhausted` for EVERY 6-digit candidate — the cap is checked
before the hash comparison — and the record survives unchanged (it is
neither deleted nor incremented). -/
theorem claim_C3_attempts_cap_blocks (validateEmail : String → Bool)
    (hashOtp : String → String) (now : Int) (email otp : String)
    (db : AuthDb) (r : EmailVerificationOTP)
    (h_email_ne : py_is_empty (py_lower (py_strip email)) = false)
    (h_email : validateEmail (py_lower (py_strip email)) = true)
    (h_otp_ne : py_is_empty (py_strip otp) = false)
    (h_otp_digits : py_is_digit_str (py_strip otp) = true)
    (h_otp_len : py_len (py_strip otp) = 6)
    (h_find : db.otps.find? (fun x => x.email == py_lower (py_strip email)) = some r)
    (h_unexpired : now < r.otp_expires_at)
    (h_attempts : 5 ≤ r.otp_attempts) :
    (api_verify_email_otp validateEmail hashOtp now email otp db).1
      = .attemptsExhausted ∧
    (api_verify_email_otp validateEmail hashOtp now email otp db).2.otps.find?
      (fun x => x.email == py_lower (py_strip email)) = some r := by
  have h_notexp : ¬ (r.otp_expires_at ≤ now) := not_le.mpr h_unexpired
  have hkeep : (fun x : EmailVerificationOTP => !(x.otp_expires_at ≤ now)) r = true := by
    simp [h_notexp]
  have h_find' : (cleanup_expired_verification_data now db).otps.find?
      (fun x => x.email == py_lower (py_strip email)) = some r :=
    find?_filter_of_pred h_find hkeep
  unfold api_verify_email_otp
  simp [h_email_ne, h_email, h_otp_ne, h_otp_digits, h_otp_len, h_find',
    otp_is_expired, attempts_exceeded, h_notexp, h_attempts]

/-- C3 witness: a record for `u@x.com` with 5 attempts and the CORRECT code
still yields `AttemptsExhausted`, and the record survives. -/
theorem claim_C3_witness :
    (api_verify_email_otp (fun _ => true) (fun s => "sha" ++ s) 500 "u@x.com"
      "482913" ⟨[⟨"u@x.com", "sha482913", 800, 5, false, some 490⟩], [], [], []⟩).1
      = .attemptsExhausted ∧
    (api_verify_email_otp (fun _ => true) (fun s => "sha" ++ s) 500 "u@x.com"
      "482913" ⟨[⟨"u@x.com", "sha482913", 800, 5, false, some 490⟩], [], [], []⟩).2.otps.find?
      (fun x => x.email == py_lower (py_strip "u@x.com"))
      = some ⟨"u@x.com", "sha482913", 800, 5, false, some 490⟩ :=
  claim_C3_attempts_cap_blocks (fun _ => true) (fun s => "sha" ++ s) 500
    "u@x.com" "482913" ⟨[⟨"u@x.com", "sha482913", 800, 5, false, some 490⟩], [], [], []⟩
    ⟨"u@x.com", "sha482913", 800, 5, false, some 490⟩
    (by decide) (by decide) (by decide) (by decide) (by decide) (by decide)
    (by decide) (by decide)

theorem validate_captcha_custom_success {now : Int} {cid ans : String}
    {db : AuthDb} {cap : CaptchaChallenge}
    (h_cid : py_is_empty cid = false) (h_ans : py_is_empty ans = false)
    (h_find : db.captchas.find? (fun c => c.captcha_id == cid) = some cap)
    (h_unused : cap.used = false) (h_unexpired : now < cap.captcha_expires_at)
    (h_match : py_strip cap.captcha_answer = py_strip ans) :
    validate_captcha_custom now cid ans db = (true, mark_captcha_used db cid) := by
  unfold validate_captcha_custom
  simp [h_cid, h_ans, h_find, h_unused, captcha_is_expired,
    not_le.mpr h_unexpired, h_match]

/-- C6: with a valid email and a valid CAPTCHA, a send request finding at
least 5 send-log rows for the email inside the trailing hour is answered
`RateLimited`. -/
theorem claim_C6_sixth_send_rate_limited (validateEmail : String → Bool)
    (hashOtp : String → String) (recaptchaOk : String → Bool)
    (mailConfigured mailOk : Bool) (now : Int)
    (otp email captcha_token captcha_id captcha_answer : String)
    (db : AuthDb) (cap : CaptchaChallenge)
    (h_email_ne : py_is_empty (py_lower (py_strip email)) = false)
    (h_email : validateEmail (py_lower (py_strip email)) = true)
    (h_tok : py_is_empty (py_strip captcha_token) = true)
    (h_cid : py_is_empty (py_strip captcha_id) = false)
    (h_ans : py_is_empty (py_strip captcha_answer) = false)
    (h_find : db.captchas.find?
      (fun c => c.captcha_id == py_strip captcha_id) = some cap)
    (h_unused : cap.used = false)
    (h_unexpired : now < cap.captcha_expires_at)
    (h_match : py_strip cap.captcha_answer = py_strip (py_strip captcha_answer))
    (h_rate : 5 ≤ (db.send_logs.filter
      (fun l => l.email == py_lower (py_strip email) && now - 3600 ≤ l.sent_at)).length) :
    (api_send_verification_otp validateEmail hashOtp recaptchaOk mailConfigured
      mailOk now otp email captcha_token captcha_id captcha_answer db).1
      = .rateLimited := by
  have h_find' : (cleanup_expired_verification_data now db).captchas.find?
      (fun c => c.captcha_id == py_strip captcha_id) = some cap := by
    refine find?_filter_of_pred h_find ?_
    simp [not_le.mpr h_unexpired]
  have h_cap := validate_captcha_custom_success h_cid h_ans h_find' h_unused
    h_unexpired h_match
  have h_imp : ∀ x : OTPSendLog,
      (fun l => l.email == py_lower (py_strip email) && now - 3600 ≤ l.sent_at) x = true →
      (fun l => !(l.sent_at ≤ now - 86400)) x = true := by
    intro x hx
    simp only [Bool.and_eq_true, decide_eq_true_eq] at hx
    simp only [Bool.not_eq_true', decide_eq_false_iff_not]
    omega
  have h_logs : (mark_captcha_used (cleanup_expired_verification_data now db)
        (py_strip captcha_id)).send_logs.filter
        (fun l => l.email == py_lower (py_strip email) && now - 3600 ≤ l.sent_at)
      = db.send_logs.filter
        (fun l => l.email == py_lower (py_strip email) && now - 3600 ≤ l.sent_at) := by
    show (db.send_logs.filter _).filter _ = _
    exact filter_filter_of_imp _ h_imp
  unfold api_send_verification_otp
  simp [-tsub_le_iff_right, h_email_ne, h_email, h_tok, h_cid,
    h_ans, h_cap, h_logs, h_rate]

/-- C6 witness: the 6th send within the hour for `u@x.com` is rate limited
despite a valid CAPTCHA. -/
theorem claim_C6_witness :
    (api_send_verification_otp (fun _ => true) (fun s => "sha" ++ s)
      (fun _ => false) true true 500 "482913" "u@x.com" "" "cid1" "12"
      ⟨[], [⟨"cid1", "12", 1000, false⟩],
        [⟨"u@x.com", 400⟩, ⟨"u@x.com", 410⟩, ⟨"u@x.com", 420⟩,
          ⟨"u@x.com", 430⟩, ⟨"u@x.com", 440⟩], []⟩).1 = .rateLimited :=
  claim_C6_sixth_send_rate_limited (fun _ => true) (fun s => "sha" ++ s)
    (fun _ => false) true true 500 "482913" "u@x.com" "" "cid1" "12"
    ⟨[], [⟨"cid1", "12", 1000, false⟩],
      [⟨"u@x.com", 400⟩, ⟨"u@x.com", 410⟩, ⟨"u@x.com", 420⟩,
        ⟨"u@x.com", 430⟩, ⟨"u@x.com", 440⟩], []⟩
    ⟨"cid1", "12", 1000, false⟩
    (by decide) (by decide) (by decide) (by decide) (by decide) (by decide)
    (by decide) (by decide) (by decide) (by decide)

/-- C7: with a valid email, a valid CAPTCHA and fewer than 5 recent sends, a
send request that finds an OTP record for the email whose `otp_sent_at` is
less than 30 seconds old is answered `Cooldown` with the remaining seconds
(`max 1 (30 - delta)`), and the stored record — hash included — is left
unchanged. -/
theorem claim_C7_cooldown_keeps_record (validateEmail : String → Bool)
    (hashOtp : String → String) (recaptchaOk : String → Bool)
    (mailConfigured mailOk : Bool) (now t : Int)
    (otp email captcha_token captcha_id captcha_answer : String)
    (db : AuthDb) (cap : CaptchaChallenge) (r : EmailVerificationOTP)
    (h_email_ne : py_is_empty (py_lower (py_strip email)) = false)
    (h_email : validateEmail (py_lower (py_strip email)) = true)
    (h_tok : py_is_empty (py_strip captcha_token) = true)
    (h_cid : py_is_empty (py_strip captcha_id) = false)
    (h_ans : py_is_empty (py_strip captcha_answer) = false)
    (h_find : db.captchas.find?
      (fun c => c.captcha_id == py_strip captcha_id) = some cap)
    (h_unused : cap.used = false)
    (h_unexpired : now < cap.captcha_expires_at)
    (h_match : py_strip cap.captcha_answer = py_strip (py_strip captcha_answer))
    (h_rate : (db.send_logs.filter
      (fun l => l.email == py_lower (py_strip email) && now - 3600 ≤ l.sent_at)).length < 5)
    (h_find_otp : db.otps.find?
      (fun x => x.email == py_lower (py_strip email)) = some r)
    (h_otp_unexpired : now < r.otp_expires_at)
    (h_sent : r.otp_sent_at = some t)
    (h_cool : now - t < 30) :
    (api_send_verification_otp validateEmail hashOtp recaptchaOk mailConfigured
      mailOk now otp email captcha_token captcha_id captcha_answer db).1
      = .cooldown (max 1 (30 - (now - t))) ∧
    (api_send_verification_otp validateEmail hashOtp recaptchaOk mailConfigured
      mailOk now otp email captcha_token captcha_id captcha_answer db).2.otps.find?
      (fun x => x.email == py_lower (py_strip email)) = some r := by
  have h_find' : (cleanup_expired_verification_data now db).captchas.find?
      (fun c => c.captcha_id == py_strip captcha_id) = some cap := by
    refine find?_filter_of_pred h_find ?_
    simp [not_le.mpr h_unexpired]
  have h_cap := validate_captcha_custom_success h_cid h_ans h_find' h_unused
    h_unexpired h_match
  have h_imp : ∀ x : OTPSendLog,
      (fun l => l.email == py_lower (py_strip email) && now - 3600 ≤ l.sent_at) x = true →
      (fun l => !(l.sent_at ≤ now - 86400)) x = true := by
    intro x hx
    simp only [Bool.and_eq_true, decide_eq_true_eq] at hx
    simp only [Bool.not_eq_true', decide_eq_false_iff_not]
    omega
  have h_logs : (mark_captcha_used (cleanup_expired_verification_data now db)
        (py_strip captcha_id)).send_logs.filter
        (fun l => l.email == py_lower (py_strip email) && now - 3600 ≤ l.sent_at)
      = db.send_logs.filter
        (fun l => l.email == py_lower (py_strip email) && now - 3600 ≤ l.sent_at) := by
    show (db.send_logs.filter _).filter _ = _
    exact filter_filter_of_imp _ h_imp
  have h_otps : (mark_captcha_used (cleanup_expired_verification_data now db)
        (py_strip captcha_id)).otps.find?
        (fun x => x.email == py_lower (py_strip email)) = some r := by
    show ((db.otps.filter _).find? _) = some r
    refine find?_filter_of_pred h_find_otp ?_
    simp [not_le.mpr h_otp_unexpired]
  unfold api_send_verification_otp
  simp [-tsub_le_iff_right, h_email_ne, h_email, h_tok, h_cid,
    h_ans, h_cap, h_logs, Nat.not_le.mpr h_rate, h_otps, h_sent, h_cool]

/-- C7 witness: a second request 10 seconds after the first answers
`Cooldown 20` and keeps the stored record. -/
theorem claim_C7_witness :
    (api_send_verification_otp (fun _ => true) (fun s => "sha" ++ s)
      (fun _ => false) true true 500 "111111" "u@x.com" "" "cid1" "12"
      ⟨[⟨"u@x.com", "sha482913", 800, 0, false, some 490⟩],
        [⟨"cid1", "12", 1000, false⟩], [⟨"u@x.com", 490⟩], []⟩).1
      = .cooldown (max 1 (30 - (500 - 490))) ∧
    (api_send_verification_otp (fun _ => true) (fun s => "sha" ++ s)
      (fun _ => false) true true 500 "111111" "u@x.com" "" "cid1" "12"
      ⟨[⟨"u@x.com", "sha482913", 800, 0, false, some 490⟩],
        [⟨"cid1", "12", 1000, false⟩], [⟨"u@x.com", 490⟩], []⟩).2.otps.find?
      (fun x => x.email == py_lower (py_strip "u@x.com"))
      = some ⟨"u@x.com", "sha482913", 800, 0, false, some 490⟩ :=
  claim_C7_cooldown_keeps_record (fun _ => true) (fun s => "sha" ++ s)
    (fun _ => false) true true 500 490 "111111" "u@x.com" "" "cid1" "12"
    ⟨[⟨"u@x.com", "sha482913", 800, 0, false, some 490⟩],
      [⟨"cid1", "12", 1000, false⟩], [⟨"u@x.com", 490⟩], []⟩
    ⟨"cid1", "12", 1000, false⟩
    ⟨"u@x.com", "sha482913", 800, 0, false, some 490⟩
    (by decide) (by decide) (by decide) (by decide) (by decide) (by decide)
    (by decide) (by decide) (by decide) (by decide) (by decide) (by decide)
    (by decide) (by decide)

theorem mark_captcha_used_all_used (db : AuthDb) (cid : String) :
    ∀ c ∈ (mark_captcha_used db cid).captchas,
      (c.captcha_id == cid) = true → c.used = true := by
  intro c hc hid
  unfold mark_captcha_used at hc
  simp only [] at hc
  rw [List.mem_map] at hc
  obtain ⟨a, _, rfl⟩ := hc
  by_cases h : (a.captcha_id == cid) = true
  · simp [h]
  · rw [if_neg (by simp [h])] at hid ⊢
    exact absurd hid h

theorem send_result_captchas (validateEmail : String → Bool)
    (hashOtp : String → String) (recaptchaOk : String → Bool)
    (mailConfigured mailOk : Bool) (now : Int)
    (otp email captcha_token captcha_id captcha_answer : String)
    (db : AuthDb) (cap : CaptchaChallenge)
    (h_email_ne : py_is_empty (py_lower (py_strip email)) = false)
    (h_email : validateEmail (py_lower (py_strip email)) = true)
    (h_tok : py_is_empty (py_strip captcha_token) = true)
    (h_cid : py_is_empty (py_strip captcha_id) = false)
    (h_ans : py_is_empty (py_strip captcha_answer) = false)
    (h_find : db.captchas.find?
      (fun c => c.captcha_id == py_strip captcha_id) = some cap)
    (h_unused : cap.used = false)
    (h_unexpired : now < cap.captcha_expires_at)
    (h_match : py_strip cap.captcha_answer = py_strip (py_strip captcha_answer)) :
    (api_send_verification_otp validateEmail hashOtp recaptchaOk mailConfigured
      mailOk now otp email captcha_token captcha_id captcha_answer db).2.captchas
      = (mark_captcha_used (cleanup_expired_verification_data now db)
          (py_strip captcha_id)).captchas := by
  have h_find' : (cleanup_expired_verification_data now db).captchas.find?
      (fun c => c.captcha_id == py_strip captcha_id) = some cap := by
    refine find?_filter_of_pred h_find ?_
    simp [not_le.mpr h_unexpired]
  have h_cap := validate_captcha_custom_success h_cid h_ans h_find' h_unused
    h_unexpired h_match
  unfold api_send_verification_otp
  simp only [h_email_ne, h_email, h_tok, h_cid, h_ans, h_cap]
  simp [append_send_log, upsert_otp_row]
  split
  · rfl
  · split
    · rfl
    · split
      · rfl
      · split <;> rfl

theorem send_captchaInvalid_of_all_used (validateEmail : String → Bool)
    (hashOtp : String → String) (recaptchaOk : String → Bool)
    (mailConfigured mailOk : Bool) (now : Int)
    (otp email captcha_token captcha_id captcha_answer : String)
    (db : AuthDb)
    (h_email_ne : py_is_empty (py_lower (py_strip email)) = false)
    (h_email : validateEmail (py_lower (py_strip email)) = true)
    (h_tok : py_is_empty (py_strip captcha_token) = true)
    (h_used : ∀ c ∈ db.captchas,
      (c.captcha_id == py_strip captcha_id) = true → c.used = true) :
    (api_send_verification_otp validateEmail hashOtp recaptchaOk mailConfigured
      mailOk now otp email captcha_token captcha_id captcha_answer db).1
      = .captchaInvalid := by
  unfold api_send_verification_otp
  by_cases hcid : py_is_empty (py_strip captcha_id) = true
  · simp [h_email_ne, h_email, h_tok, hcid]
  · by_cases hca : py_is_empty (py_strip captcha_answer) = true
    · simp [h_email_ne, h_email, h_tok, hca]
    · have hval : validate_captcha_custom now (py_strip captcha_id)
          (py_strip captcha_answer) (cleanup_expired_verification_data now db)
          = (false, cleanup_expired_verification_data now db) := by
        unfold validate_captcha_custom
        rw [if_neg (by simp [hcid, hca])]
        cases hf : (cleanup_expired_verification_data now db).captchas.find?
            (fun c => c.captcha_id == py_strip captcha_id) with
        | none => simp
        | some c =>
          have hc_mem : c ∈ db.captchas :=
            List.mem_of_mem_filter (List.mem_of_find?_eq_some hf)
          have hc_pred := List.find?_some hf
          simp only [] at hc_pred
          simp [h_used c hc_mem hc_pred]
      simp [h_email_ne, h_email, h_tok, hcid, hca, hval]

/-- C5: an issued, unused, unexpired CAPTCHA whose answer matches validates
exactly once in `request_otp`: the first use does not fail `CaptchaInvalid`
and marks the challenge used, and every later `request_otp` presenting the
same captcha id (with any answer, at any time, for any valid email, without
a reCAPTCHA token) fails `CaptchaInvalid`. -/
theorem claim_C5_captcha_single_use (validateEmail : String → Bool)
    (hashOtp : String → String) (recaptchaOk : String → Bool)
    (mailConfigured mailOk : Bool) (now : Int)
    (otp email captcha_token captcha_id captcha_answer : String)
    (db : AuthDb) (cap : CaptchaChallenge)
    (h_email_ne : py_is_empty (py_lower (py_strip email)) = false)
    (h_email : validateEmail (py_lower (py_strip email)) = true)
    (h_tok : py_is_empty (py_strip captcha_token) = true)
    (h_cid : py_is_empty (py_strip captcha_id) = false)
    (h_ans : py_is_empty (py_strip captcha_answer) = false)
    (h_find : db.captchas.find?
      (fun c => c.captcha_id == py_strip captcha_id) = some cap)
    (h_unused : cap.used = false)
    (h_unexpired : now < cap.captcha_expires_at)
    (h_match : py_strip cap.captcha_answer = py_strip (py_strip captcha_answer)) :
    (api_send_verification_otp validateEmail hashOtp recaptchaOk mailConfigured
      mailOk now otp email captcha_token captcha_id captcha_answer db).1
      ≠ .captchaInvalid ∧
    (∀ (now₂ : Int) (otp₂ email₂ tok₂ ans₂ : String) (mailC₂ mailOk₂ : Bool),
      py_is_empty (py_lower (py_strip email₂)) = false →
      validateEmail (py_lower (py_strip email₂)) = true →
      py_is_empty (py_strip tok₂) = true →
      (api_send_verification_otp validateEmail hashOtp recaptchaOk mailC₂
        mailOk₂ now₂ otp₂ email₂ tok₂ captcha_id ans₂
        (api_send_verification_otp validateEmail hashOtp recaptchaOk
          mailConfigured mailOk now otp email captcha_token captcha_id
          captcha_answer db).2).1 = .captchaInvalid) := by
  have h_find' : (cleanup_expired_verification_data now db).captchas.find?
      (fun c => c.captcha_id == py_strip captcha_id) = some cap := by
    refine find?_filter_of_pred h_find ?_
    simp [not_le.mpr h_unexpired]
  have h_cap := validate_captcha_custom_success h_cid h_ans h_find' h_unused
    h_unexpired h_match
  constructor
  · unfold api_send_verification_otp
    simp only [h_email_ne, h_email, h_tok, h_cid, h_ans, h_cap]
    simp
    split
    · simp
    · split
      · simp
      · split
        · simp
        · split <;> simp
  · intro now₂ otp₂ email₂ tok₂ ans₂ mailC₂ mailOk₂ h_e2ne h_e2 h_t2
    refine send_captchaInvalid_of_all_used validateEmail hashOtp recaptchaOk
      mailC₂ mailOk₂ now₂ otp₂ email₂ tok₂ captcha_id ans₂ _ h_e2ne h_e2 h_t2 ?_
    rw [send_result_captchas validateEmail hashOtp recaptchaOk mailConfigured
      mailOk now otp email captcha_token captcha_id captcha_answer db cap
      h_email_ne h_email h_tok h_cid h_ans h_find h_unused h_unexpired h_match]
    exact mark_captcha_used_all_used _ _

/-- C5 witness: the concrete challenge `cid1`/answer `12` passes its first
use (the call returns `sent`) and a second call replaying `cid1` fails
`CaptchaInvalid`. -/
theorem claim_C5_witness :
    (api_send_verification_otp (fun _ => true) (fun s => "sha" ++ s)
      (fun _ => false) true true 500 "482913" "u@x.com" "" "cid1" "12"
      ⟨[], [⟨"cid1", "12", 1000, false⟩], [], []⟩).1 ≠ .captchaInvalid ∧
    (api_send_verification_otp (fun _ => true) (fun s => "sha" ++ s)
      (fun _ => false) true true 505 "999999" "u@x.com" "" "cid1" "12"
      (api_send_verification_otp (fun _ => true) (fun s => "sha" ++ s)
        (fun _ => false) true true 500 "482913" "u@x.com" "" "cid1" "12"
        ⟨[], [⟨"cid1", "12", 1000, false⟩], [], []⟩).2).1 = .captchaInvalid :=
  ⟨(claim_C5_captcha_single_use (fun _ => true) (fun s => "sha" ++ s)
      (fun _ => false) true true 500 "482913" "u@x.com" "" "cid1" "12"
      ⟨[], [⟨"cid1", "12", 1000, false⟩], [], []⟩ ⟨"cid1", "12", 1000, false⟩
      (by decide) (by decide) (by decide) (by decide) (by decide) (by decide)
      (by decide) (by decide) (by decide)).1,
    (claim_C5_captcha_single_use (fun _ => true) (fun s => "sha" ++ s)
      (fun _ => false) true true 500 "482913" "u@x.com" "" "cid1" "12"
      ⟨[], [⟨"cid1", "12", 1000, false⟩], [], []⟩ ⟨"cid1", "12", 1000, false⟩
      (by decide) (by decide) (by decide) (by decide) (by decide) (by decide)
      (by decide) (by decide) (by decide)).2 505 "999999" "u@x.com" "" "12"
      true true (by decide) (by decide) (by decide)⟩

theorem mark_user_verified_first_verified {users : List User} {e : String}
    (h_nodup : (users.map (fun u => u.email)).Nodup) :
    ∀ u ∈ mark_user_verified_first users e, u.email = e → u.email_verified = true := by
  induction users with
  | nil =>
    intro u hu
    simp [mark_user_verified_first] at hu
  | cons w rest ih =>
    intro u hu he
    rw [List.map_cons, List.nodup_cons] at h_nodup
    obtain ⟨hw, hrest⟩ := h_nodup
    by_cases hwe : (w.email == e) = true
    · rw [mark_user_verified_first, if_pos hwe] at hu
      rcases List.mem_cons.mp hu with rfl | hur
      · rfl
      · exfalso
        apply hw
        have hwe' : w.email = e := by simpa using hwe
        rw [hwe', ← he]
        exact List.mem_map_of_mem _ hur
    · rw [mark_user_verified_first, if_neg hwe] at hu
      rcases List.mem_cons.mp hu with rfl | hur
      · exact absurd (by simp [he]) hwe
      · exact ih hrest u hur he

theorem verify_notFound_of_no_record (validateEmail : String → Bool)
    (hashOtp : String → String) (now : Int) (email otp : String) (db : AuthDb)
    (h_email_ne : py_is_empty (py_lower (py_strip email)) = false)
    (h_email : validateEmail (py_lower (py_strip email)) = true)
    (h_otp_ne : py_is_empty (py_strip otp) = false)
    (h_otp_digits : py_is_digit_str (py_strip otp) = true)
    (h_otp_len : py_len (py_strip otp) = 6)
    (h_none : ∀ x ∈ db.otps, (x.email == py_lower (py_strip email)) = false) :
    (api_verify_email_otp validateEmail hashOtp now email otp db).1 = .notFound := by
  have h_find : (cleanup_expired_verification_data now db).otps.find?
      (fun x => x.email == py_lower (py_strip email)) = none := by
    apply List.find?_eq_none.mpr
    intro x hx
    have hmem : x ∈ db.otps := List.mem_of_mem_filter hx
    simp [h_none x hmem]
  unfold api_verify_email_otp
  simp [h_email_ne, h_email, h_otp_ne, h_otp_digits, h_otp_len, h_find]

/-- C8: an unexpired record below the attempts cap verified with the matching
code yields a success carrying the registration proof token for the email
(expiring 15 minutes later), deletes the record, marks every stored account
with that (unique) email verified — and any replay of the same call on the
resulting state fails `NotFound` because the record is gone. -/
theorem claim_C8_verify_success_then_replay_notFound
    (validateEmail : String → Bool) (hashOtp : String → String) (now : Int)
    (email otp : String) (db : AuthDb) (r : EmailVerificationOTP)
    (h_email_ne : py_is_empty (py_lower (py_strip email)) = false)
    (h_email : validateEmail (py_lower (py_strip email)) = true)
    (h_otp_ne : py_is_empty (py_strip otp) = false)
    (h_otp_digits : py_is_digit_str (py_strip otp) = true)
    (h_otp_len : py_len (py_strip otp) = 6)
    (h_find : db.otps.find? (fun x => x.email == py_lower (py_strip email)) = some r)
    (h_unexpired : now < r.otp_expires_at)
    (h_att : r.otp_attempts < 5)
    (h_hash : r.otp_hash = hashOtp (py_strip otp))
    (h_nodup : (db.users.map (fun u => u.email)).Nodup) :
    (api_verify_email_otp validateEmail hashOtp now email otp db).1
      = .verified ⟨py_lower (py_strip email), now + 900⟩ ∧
    (∀ x ∈ (api_verify_email_otp validateEmail hashOtp now email otp db).2.otps,
      (x.email == py_lower (py_strip email)) = false) ∧
    (∀ u ∈ (api_verify_email_otp validateEmail hashOtp now email otp db).2.users,
      u.email = py_lower (py_strip email) → u.email_verified = true) ∧
    (∀ now₂ : Int,
      (api_verify_email_otp validateEmail hashOtp now₂ email otp
        (api_verify_email_otp validateEmail hashOtp now email otp db).2).1
        = .notFound) := by
  have h_notexp : ¬ (r.otp_expires_at ≤ now) := not_le.mpr h_unexpired
  have h_find' : (cleanup_expired_verification_data now db).otps.find?
      (fun x => x.email == py_lower (py_strip email)) = some r := by
    refine find?_filter_of_pred h_find ?_
    simp [h_notexp]
  have h_deleted : ∀ x ∈ (api_verify_email_otp validateEmail hashOtp now email
      otp db).2.otps, (x.email == py_lower (py_strip email)) = false := by
    unfold api_verify_email_otp
    simp [h_email_ne, h_email, h_otp_ne, h_otp_digits, h_otp_len, h_find',
      otp_is_expired, attempts_exceeded, h_notexp, Nat.not_le.mpr h_att,
      verify_otp, h_hash]
  refine ⟨?_, h_deleted, ?_, ?_⟩
  · unfold api_verify_email_otp
    simp [h_email_ne, h_email, h_otp_ne, h_otp_digits, h_otp_len, h_find',
      otp_is_expired, attempts_exceeded, h_notexp, Nat.not_le.mpr h_att,
      verify_otp, h_hash]
  · unfold api_verify_email_otp
    simp [h_email_ne, h_email, h_otp_ne, h_otp_digits, h_otp_len, h_find',
      otp_is_expired, attempts_exceeded, h_notexp, Nat.not_le.mpr h_att,
      verify_otp, h_hash]
    exact mark_user_verified_first_verified h_nodup
  · intro now₂
    exact verify_notFound_of_no_record validateEmail hashOtp now₂ email otp _
      h_email_ne h_email h_otp_ne h_otp_digits h_otp_len h_deleted

/-- C8 witness: verifying `482913` for `u@x.com` succeeds with a token,
deletes the record, marks the stored account verified, and the replay at a
later time answers `NotFound`. -/
theorem claim_C8_witness :
    (api_verify_email_otp (fun _ => true) (fun s => "sha" ++ s) 500 "u@x.com"
      "482913" ⟨[⟨"u@x.com", "sha482913", 800, 0, false, some 490⟩], [], [],
        [⟨1, "Some User", "9876543210", "u@x.com", "p", true, false⟩]⟩).1
      = .verified ⟨py_lower (py_strip "u@x.com"), 500 + 900⟩ ∧
    (∀ u ∈ (api_verify_email_otp (fun _ => true) (fun s => "sha" ++ s) 500
        "u@x.com" "482913" ⟨[⟨"u@x.com", "sha482913", 800, 0, false, some 490⟩],
        [], [], [⟨1, "Some User", "9876543210", "u@x.com", "p", true, false⟩]⟩).2.users,
      u.email = py_lower (py_strip "u@x.com") → u.email_verified = true) ∧
    (api_verify_email_otp (fun _ => true) (fun s => "sha" ++ s) 505 "u@x.com"
      "482913" (api_verify_email_otp (fun _ => true) (fun s => "sha" ++ s) 500
        "u@x.com" "482913" ⟨[⟨"u@x.com", "sha482913", 800, 0, false, some 490⟩],
        [], [], [⟨1, "Some User", "9876543210", "u@x.com", "p", true, false⟩]⟩).2).1
      = .notFound :=
  ⟨(claim_C8_verify_success_then_replay_notFound (fun _ => true)
      (fun s => "sha" ++ s) 500 "u@x.com" "482913"
      ⟨[⟨"u@x.com", "sha482913", 800, 0, false, some 490⟩], [], [],
        [⟨1, "Some User", "9876543210", "u@x.com", "p", true, false⟩]⟩
      ⟨"u@x.com", "sha482913", 800, 0, false, some 490⟩
      (by decide) (by decide) (by decide) (by decide) (by decide) (by decide)
      (by decide) (by decide) (by decide) (by decide)).1,
    (claim_C8_verify_success_then_replay_notFound (fun _ => true)
      (fun s => "sha" ++ s) 500 "u@x.com" "482913"
      ⟨[⟨"u@x.com", "sha482913", 800, 0, false, some 490⟩], [], [],
        [⟨1, "Some User", "9876543210", "u@x.com", "p", true, false⟩]⟩
      ⟨"u@x.com", "sha482913", 800, 0, false, some 490⟩
      (by decide) (by decide) (by decide) (by decide) (by decide) (by decide)
      (by decide) (by decide) (by decide) (by decide)).2.2.1,
    (claim_C8_verify_success_then_replay_notFound (fun _ => true)
      (fun s => "sha" ++ s) 500 "u@x.com" "482913"
      ⟨[⟨"u@x.com", "sha482913", 800, 0, false, some 490⟩], [], [],
        [⟨1, "Some User", "9876543210", "u@x.com", "p", true, false⟩]⟩
      ⟨"u@x.com", "sha482913", 800, 0, false, some 490⟩
      (by decide) (by decide) (by decide) (by decide) (by decide) (by decide)
      (by decide) (by decide) (by decide) (by decide)).2.2.2 505⟩

/-- C10: a registration that passes validation stores the new account with
`email_verified = True` when NO verification token is supplied (the flag
defaults to true); when a token IS supplied the flag is derived from the
token — it becomes `False` whenever the token is invalid or names a
different email — and the registration still succeeds. -/
theorem claim_C10_register_verified_default (allowRegistration : Bool)
    (validateEmail validatePassword : String → Bool)
    (hashPassword : String → String) (verifyToken : String → Option String)
    (next_id : Nat)
    (full_name mobile email password retype_password verification_token : String)
    (users : List User)
    (h_allow : allowRegistration = true)
    (h_name1 : py_is_empty (py_strip full_name) = false)
    (h_name2 : py_is_empty (remove_spaces (py_strip full_name)) = false)
    (h_name3 : py_is_alpha_str (remove_spaces (py_strip full_name)) = true)
    (h_mob1 : py_is_empty (py_strip mobile) = false)
    (h_mob2 : py_is_empty (keep_digits (py_strip mobile)) = false)
    (h_mob3 : 10 ≤ py_len (keep_digits (py_strip mobile)))
    (h_mob4 : py_len (keep_digits (py_strip mobile)) ≤ 15)
    (h_em : validateEmail (py_lower (py_strip email)) = true)
    (h_pw : validatePassword password = true)
    (h_retype : password = retype_password)
    (h_mob_free : users.any
      (fun u => u.mobile == keep_digits (py_strip mobile)) = false)
    (h_em_free : users.any
      (fun u => u.email == py_lower (py_strip email)) = false) :
    (py_is_empty (py_strip verification_token) = true →
      ∃ u, register allowRegistration validateEmail validatePassword
        hashPassword verifyToken next_id full_name mobile email password
        retype_password verification_token users = (.success u, users ++ [u]) ∧
        u.email_verified = true) ∧
    (py_is_empty (py_strip verification_token) = false →
      (verifyToken (py_strip verification_token) = none ∨
        (∀ te, verifyToken (py_strip verification_token) = some te →
          te ≠ py_strip email)) →
      ∃ u, register allowRegistration validateEmail validatePassword
        hashPassword verifyToken next_id full_name mobile email password
        retype_password verification_token users = (.success u, users ++ [u]) ∧
        u.email_verified = false) := by
  subst h_allow
  have e1 : decide (py_len (keep_digits (py_strip mobile)) < 10) = false :=
    decide_eq_false (Nat.not_lt.mpr h_mob3)
  have e2 : decide (15 < py_len (keep_digits (py_strip mobile))) = false :=
    decide_eq_false (Nat.not_lt.mpr h_mob4)
  have e3 : decide (password ≠ retype_password) = false :=
    decide_eq_false (by simp [h_retype])
  constructor
  · intro htok
    refine ⟨⟨next_id, py_strip full_name, keep_digits (py_strip mobile),
      py_lower (py_strip email), hashPassword password, true, true⟩, ?_, rfl⟩
    unfold register
    simp [h_name1, h_name2, h_name3, h_mob1, h_mob2, e1, e2, e3, h_em, h_pw,
      h_mob_free, h_em_free, htok]
  · intro htok hbad
    have hev : (match verifyToken (py_strip verification_token) with
        | some token_email => token_email == py_strip email
        | none => false) = false := by
      cases hv : verifyToken (py_strip verification_token) with
      | none => rfl
      | some te =>
        rcases hbad with hb | hb
        · rw [hv] at hb
          exact absurd hb (by simp)
        · simpa using hb te hv
    refine ⟨⟨next_id, py_strip full_name, keep_digits (py_strip mobile),
      py_lower (py_strip email), hashPassword password, true, false⟩, ?_, rfl⟩
    unfold register
    simp [h_name1, h_name2, h_name3, h_mob1, h_mob2, e1, e2, e3, h_em, h_pw,
      h_mob_free, h_em_free, htok, hev]

/-- C10 witness: registering Alice with no token stores the account verified;
registering with an undecodable token still succeeds but stores it
unverified. -/
theorem claim_C10_witness :
    (∃ u, register true (fun _ => true) (fun _ => true) (fun s => "h" ++ s)
        (fun t => if t == "tok" then some "u@x.com" else none) 5 "Alice Smith"
        "9876543210" "u@x.com" "pw123456" "pw123456" "" []
        = (.success u, [] ++ [u]) ∧ u.email_verified = true) ∧
    (∃ u, register true (fun _ => true) (fun _ => true) (fun s => "h" ++ s)
        (fun t => if t == "tok" then some "u@x.com" else none) 5 "Alice Smith"
        "9876543210" "u@x.com" "pw123456" "pw123456" "badtoken" []
        = (.success u, [] ++ [u]) ∧ u.email_verified = false) :=
  ⟨(claim_C10_register_verified_default true (fun _ => true) (fun _ => true)
      (fun s => "h" ++ s) (fun t => if t == "tok" then some "u@x.com" else none)
      5 "Alice Smith" "9876543210" "u@x.com" "pw123456" "pw123456" "" []
      (by decide) (by decide) (by decide) (by decide) (by decide) (by decide)
      (by decide) (by decide) (by decide) (by decide) (by decide) (by decide)
      (by decide)).1 (by decide),
    (claim_C10_register_verified_default true (fun _ => true) (fun _ => true)
      (fun s => "h" ++ s) (fun t => if t == "tok" then some "u@x.com" else none)
      5 "Alice Smith" "9876543210" "u@x.com" "pw123456" "pw123456" "badtoken" []
      (by decide) (by decide) (by decide) (by decide) (by decide) (by decide)
      (by decide) (by decide) (by decide) (by decide) (by decide) (by decide)
      (by decide)).2 (by decide) (Or.inl (by decide))⟩

end TradeSignals
